import Mathlib

/-!
# Verification of the HUDSON sensor main loop (`src/main/mainloop.py`)

Shallow embedding of the MicroPython main loop of
`micropython-hudson-sensor-mainloop`, together with theorems settling the
specification claims about it.

The embedding is split into four parts, mirroring the source file:

* the interrupt latch (`nm3_callback`, lines 54-72, and its consumption by
  the main loop, lines 230-250), modelled as an interleaved transition
  system over the four module-level globals;
* the straight-line startup sequence of `run_mainloop` (lines 111-210),
  modelled as a list of atomic actions;
* the per-packet command dispatch (lines 252-318), modelled as a function
  from a payload to the list of actions performed;
* one iteration of the `while True` loop (lines 220-365) and the loop
  itself, including the `try`/`except` boundary.

Machine integers do not overflow in any modelled computation (times are
second counts), so timestamps are `Nat`.
-/

/-- The data captured by one hardware edge: the values that `utime.time()`,
`pyb.millis()` and `pyb.micros()` return at the instant the interrupt
handler runs (lines 69-71). -/
structure EdgeData where
  sec : Nat
  mil : Nat
  mic : Nat
deriving DecidableEq

/-- The module-level globals shared between the interrupt handler and the
main loop (lines 56-59): `_nm3_callback_flag`, `_nm3_callback_seconds`,
`_nm3_callback_millis`, `_nm3_callback_micros`.

`edgeCount` counts the edges seen so far, and `secSrc`, `msSrc`, `usSrc`
are ghost provenance fields recording the index (1-based) of the edge
whose handler last wrote each of the three timestamp globals; they do not
influence any behaviour. -/
structure Wake where
  flag : Bool
  seconds : Nat
  millis : Nat
  micros : Nat
  edgeCount : Nat
  secSrc : Nat
  msSrc : Nat
  usSrc : Nat
deriving DecidableEq

/-- Initial global state (lines 56-59): flag `False`, all counters `0`. -/
def initWake : Wake :=
  { flag := false, seconds := 0, millis := 0, micros := 0,
    edgeCount := 0, secSrc := 0, msSrc := 0, usSrc := 0 }

/-- `nm3_callback` (lines 62-72): writes micros, millis, seconds and then
sets the flag.  A hard interrupt handler on this platform runs to
completion relative to the main loop, so the whole handler is one atomic
step of the interleaved system; the ghost fields record which edge wrote
the three timestamp globals. -/
def isr (e : EdgeData) (w : Wake) : Wake :=
  let k := w.edgeCount + 1
  { flag := true, seconds := e.sec, millis := e.mil, micros := e.mic,
    edgeCount := k, secSrc := k, msSrc := k, usSrc := k }

/-- A burst of consecutive interrupt edges applied to the globals. -/
def applyEdges (es : List EdgeData) (w : Wake) : Wake :=
  es.foldl (fun w e => isr e w) w

/-- The edges that fire inside one main-loop consumption of the latch,
between its successive atomic steps: `g1` between the flag read (line
230/231) and the flag clear (line 234), `g2` between the clear and the
read of `_nm3_callback_seconds` (line 248), `g3` between the seconds read
and the millis read (line 249), `g4` between the millis read and the
micros read (line 250). -/
structure Gaps where
  g1 : List EdgeData
  g2 : List EdgeData
  g3 : List EdgeData
  g4 : List EdgeData
deriving DecidableEq

/-- What the main loop observed in one consumption of the latch: the value
of the pending flag it saw, the three timestamp values it copied onto the
message packet, and (ghost) the index of the edge that produced each. -/
structure Snapshot where
  sawPending : Bool
  sec : Nat
  mil : Nat
  mic : Nat
  secSrc : Nat
  msSrc : Nat
  usSrc : Nat
deriving DecidableEq

/-- Globals at the moment the main loop reads `_nm3_callback_seconds`
(line 248): the flag has been read and cleared (lines 230-234, with the
`g1` edges in between), and the `g2` edges have fired since the clear. -/
def consumeW3 (g : Gaps) (w : Wake) : Wake :=
  applyEdges g.g2 { applyEdges g.g1 w with flag := false }

/-- Globals at the moment the main loop reads `_nm3_callback_millis`
(line 249). -/
def consumeW4 (g : Gaps) (w : Wake) : Wake :=
  applyEdges g.g3 (consumeW3 g w)

/-- Globals at the moment the main loop reads `_nm3_callback_micros`
(line 250). -/
def consumeW5 (g : Gaps) (w : Wake) : Wake :=
  applyEdges g.g4 (consumeW4 g w)

/-- One main-loop consumption of the latch (lines 230-250): read the flag,
clear it, then read the three timestamp globals one after another, with
interrupt edges possibly firing in each gap. -/
def consume (g : Gaps) (w : Wake) : Wake × Snapshot :=
  (consumeW5 g w,
   { sawPending := w.flag,                  -- line 230/231: `if _nm3_callback_flag`
     sec := (consumeW3 g w).seconds, mil := (consumeW4 g w).millis,
     mic := (consumeW5 g w).micros,
     secSrc := (consumeW3 g w).secSrc, msSrc := (consumeW4 g w).msSrc,
     usSrc := (consumeW5 g w).usSrc })

/-- One element of an interleaved run: the edges that fire before a
main-loop consumption, then the consumption itself with its in-gap
edges. -/
structure TraceStep where
  before : List EdgeData
  gaps : Gaps
deriving DecidableEq

/-- Run an interleaved sequence of edges and latch consumptions from a
given global state, collecting the snapshot of every consumption. -/
def runTrace : List TraceStep → Wake → Wake × List Snapshot
  | [], w => (w, [])
  | t :: ts, w =>
    ((runTrace ts (consume t.gaps (applyEdges t.before w)).1).1,
     (consume t.gaps (applyEdges t.before w)).2
       :: (runTrace ts (consume t.gaps (applyEdges t.before w)).1).2)

/-- Number of interrupt edges occurring in one trace step. -/
def totalEdgesStep (t : TraceStep) : Nat :=
  t.before.length + t.gaps.g1.length + t.gaps.g2.length
    + t.gaps.g3.length + t.gaps.g4.length

/-- Total number of interrupt edges in a trace. -/
def totalEdges (ts : List TraceStep) : Nat :=
  (ts.map totalEdgesStep).sum

/-- Number of consumptions that observed the pending flag true. -/
def obsTrue (ss : List Snapshot) : Nat :=
  ss.countP (fun s => s.sawPending)

/-- `1` if the pending flag is set, else `0`. -/
def flagBit (w : Wake) : Nat :=
  if w.flag then 1 else 0

/-- A snapshot is consistent when its three timestamp fields were all
written by the same single edge. -/
def consistentSnap (s : Snapshot) : Prop :=
  s.secSrc = s.msSrc ∧ s.msSrc = s.usSrc

instance : DecidablePred consistentSnap := fun s => by
  unfold consistentSnap; infer_instance

/-- The three ghost provenance fields agree: the last writes to the three
timestamp globals came from one edge. -/
def InvSrc (w : Wake) : Prop :=
  w.secSrc = w.msSrc ∧ w.msSrc = w.usSrc

/-- Concrete interleaving refuting snapshot consistency: edge 1 fires,
then the main loop reads the flag, clears it and reads
`_nm3_callback_seconds`; edge 2 fires before the main loop reads
`_nm3_callback_millis` and `_nm3_callback_micros`. -/
def cexTrace : List TraceStep :=
  [{ before := [{ sec := 100, mil := 5, mic := 7 }],
     gaps := { g1 := [], g2 := [], g3 := [{ sec := 200, mil := 9, mic := 11 }], g4 := [] } }]

/-- A run with a single edge and one clean consumption (no edges inside
any gap), used to instantiate the universally quantified C1 statement. -/
def witTrace : List TraceStep :=
  [{ before := [{ sec := 50, mil := 1, mic := 2 }],
     gaps := { g1 := [], g2 := [], g3 := [], g4 := [] } }]

/-- Atomic observable actions performed by `run_mainloop`, one constructor
per primitive call in the source. -/
inductive Act where
  | initWdt                            -- line 111: machine.WDT(timeout=30000)
  | readResetCause                     -- lines 117-128: machine.reset_cause()
  | jotResetCause (cause : String)     -- line 130: jot("Reset cause: " + cause)
  | jot (s : String)                   -- jotter.get_jotter().jot(...)
  | printAct (s : String)              -- print(...)
  | feed                               -- wdt.feed()
  | ledOn                              -- pyb.LED(2).on()
  | ledOff                             -- pyb.LED(2).off()
  | powerModuleInit                    -- line 143: PowerModule()
  | disableNm3                         -- powermodule.disable_nm3()
  | enableNm3                          -- powermodule.enable_nm3()
  | en3v3On                            -- pyb.Pin.board.EN_3V3.on()
  | en3v3Off                           -- pyb.Pin.board.EN_3V3.off()
  | pinY5Out                           -- line 148: pyb.Pin('Y5', OUT, value=0)
  | maxInit                            -- line 149: MAX3221E(...)
  | txForceOn                          -- max3221e.tx_force_on()
  | txForceOff                         -- max3221e.tx_force_off()
  | extIntClear                        -- line 154: ExtInt(..., None)
  | extIntSet                          -- line 155: ExtInt(..., nm3_callback)
  | uartOpen                           -- line 159: machine.UART(1, 9600, ...)
  | nm3Init                            -- line 160: Nm3(uart, uart)
  | sleepMs (n : Nat)                  -- utime.sleep_ms(n)
  | getAddress                         -- nm3_modem.get_address()
  | getVoltage                         -- nm3_modem.get_battery_voltage()
  | sendBroadcast (s : String)         -- nm3_modem.send_broadcast_message(...)
  | networkInit                        -- lines 201-202: HudsonSensorNodeNetwork()
  | uptimeStart                        -- line 210: utime.time()
  | pollReceiver                       -- line 238: nm3_modem.poll_receiver()
  | processBuffer                      -- line 239: process_incoming_buffer()
  | getPacket                          -- line 246: get_received_packet()
  | copyTimestamps (sec mil mic : Nat) -- lines 248-250
  | reset                              -- machine.reset()
  | otaFlagWrite (ok : Bool)           -- lines 264-266: open('.USOTA','w') attempt
  | jotException (s : String)          -- jot_exception / sys.print_exception
  | gcCollect                          -- gc.collect()
  | networkForward (p : List Nat)      -- line 315: nm3_network.handle_packet(...)
  | pullSclIn                          -- line 332: Pin('PULL_SCL', IN)
  | pullSdaIn                          -- line 333: Pin('PULL_SDA', IN)
  | pullSclOut                         -- line 356: Pin('PULL_SCL', OUT, value=1)
  | pullSdaOut                         -- line 357: Pin('PULL_SDA', OUT, value=1)
  | lightsleep                         -- line 346: machine.lightsleep()
deriving DecidableEq

/-- `"{:03d}".format(n)`: decimal representation zero-padded to width 3. -/
def fmt3 (n : Nat) : String :=
  let s := toString n
  if s.length < 3 then String.mk (List.replicate (3 - s.length) '0') ++ s else s

/-- The alive broadcast payload of line 88:
`"UA" + "{:03d}".format(address) + "B{:0.2f}V".format(voltage) + "REV:..."`.
The voltage is carried as its already-formatted decimal string. -/
def aliveString (addr : Nat) (volt : String) : String :=
  "UA" ++ fmt3 addr ++ "B" ++ volt ++ "V" ++ "REV:2021-07-09T17:38:00"

/-- `send_usmart_alive_message` (lines 75-89) with a non-None modem. -/
def aliveMsgActs (addr : Nat) (volt : String) : List Act :=
  [Act.getAddress, Act.sleepMs 20, Act.getVoltage, Act.sleepMs 20,
   Act.sendBroadcast (aliveString addr volt)]

/-- The straight-line startup sequence of `run_mainloop`, lines 111-210,
as the list of primitive actions in program order.  `cause` is the decoded
reset cause string, `addr`/`volt` the modem's address and formatted
voltage, `statusLine` the formatted address/voltage report of lines
183-185. -/
def startupTrace (cause : String) (addr : Nat) (volt : String)
    (statusLine : String) : List Act :=
  [Act.initWdt,                                  -- line 111
   Act.readResetCause,                           -- lines 117-128
   Act.jotResetCause cause,                      -- line 130
   Act.printAct ("last_reset_cause=" ++ cause),  -- line 132
   Act.feed,                                     -- line 136
   Act.ledOn,                                    -- line 138
   Act.jot "Powering off NM3",                   -- line 140
   Act.powerModuleInit,                          -- line 143
   Act.disableNm3,                               -- line 144
   Act.en3v3On,                                  -- line 147
   Act.pinY5Out,                                 -- line 148
   Act.maxInit,                                  -- line 149
   Act.txForceOn,                                -- line 150
   Act.extIntClear,                              -- line 154
   Act.extIntSet,                                -- line 155
   Act.uartOpen,                                 -- line 159
   Act.nm3Init,                                  -- line 160
   Act.sleepMs 20,                               -- line 161
   Act.feed,                                     -- line 164
   Act.jot "Powering on NM3",                    -- line 166
   Act.sleepMs 10000,                            -- line 168
   Act.enableNm3,                                -- line 169
   Act.sleepMs 10000,                            -- line 170
   Act.feed,                                     -- line 173
   Act.jot "NM3 running",                        -- line 175
   Act.getAddress,                               -- line 179
   Act.sleepMs 20,                               -- line 180
   Act.getVoltage,                               -- line 181
   Act.sleepMs 20,                               -- line 182
   Act.printAct statusLine,                      -- line 183
   Act.jot statusLine]                           -- lines 184-185
  ++ aliveMsgActs addr volt                      -- line 189
  ++ [Act.feed,                                  -- line 194
      Act.sleepMs 500,                           -- line 197
      Act.networkInit,                           -- lines 201-202
      Act.sleepMs 100,                           -- line 204
      Act.feed,                                  -- line 207
      Act.uptimeStart]                           -- line 210

/-- Milliseconds of explicit delay incurred by an action. -/
def delayOf : Act → Nat
  | .sleepMs n => n
  | _ => 0

/-- Is the action a watchdog feed? -/
def isFeedAct : Act → Bool
  | .feed => true
  | _ => false

/-- Is the action a lightsleep call? -/
def isLightsleepAct : Act → Bool
  | .lightsleep => true
  | _ => false

/-- Scanning outward from a delay: the next action in this direction is a
feed before any other delay-incurring step occurs. -/
def noDelayTillFeed : List Act → Bool
  | [] => false
  | a :: rest =>
    if isFeedAct a then true
    else if 0 < delayOf a then false
    else noDelayTillFeed rest

/-- Helper for `feedsBracketDelays`: `pre` is the reversed list of actions
already passed. -/
def bracketsAux : List Act → List Act → Bool
  | _, [] => true
  | pre, a :: rest =>
    (if 1000 ≤ delayOf a then noDelayTillFeed pre && noDelayTillFeed rest
     else true)
      && bracketsAux (a :: pre) rest

/-- The C2 claim as stated: every delay of at least 1000 ms in the trace
is immediately preceded by a feed and immediately followed by a feed,
with no other delay-incurring step between the delay and either feed. -/
def feedsBracketDelays (t : List Act) : Bool :=
  bracketsAux [] t

/-- Helper for `maxFeedGapDelay`: `cur` is the delay accumulated since the
last feed, `best` the largest segment total seen so far. -/
def gapsAux : Nat → Nat → List Act → Nat
  | cur, best, [] => max cur best
  | cur, best, a :: rest =>
    if isFeedAct a then gapsAux 0 (max cur best) rest
    else gapsAux (cur + delayOf a) best rest

/-- Largest total explicit delay accumulated between two consecutive
watchdog feeds (or a trace end) of a trace. -/
def maxFeedGapDelay (t : List Act) : Nat :=
  gapsAux 0 0 t

/-- Every delay of at least 1000 ms is immediately followed by a feed. -/
def bigDelaysFedAfter : List Act → Bool
  | [] => true
  | a :: rest =>
    (if 1000 ≤ delayOf a then
       (match rest with
        | b :: _ => isFeedAct b
        | [] => false)
     else true)
      && bigDelaysFedAfter rest

/-- Helper for `lightsleepsFedBefore`: `prev` is the preceding action. -/
def lsFedAux : Act → List Act → Bool
  | _, [] => true
  | prev, a :: rest =>
    (if isLightsleepAct a then isFeedAct prev else true) && lsFedAux a rest

/-- Every lightsleep in the trace is immediately preceded by a feed. -/
def lightsleepsFedBefore : List Act → Bool
  | [] => true
  | a :: rest => !isLightsleepAct a && lsFedAux a rest

/-- Is the action a touch of a power rail or of a line-driver pin (modem
supply, logic rail, line-driver enable/transmit pins, bus pull-ups)? -/
def isRailOrLinePin : Act → Bool
  | .disableNm3 | .enableNm3 | .en3v3On | .en3v3Off | .pinY5Out
  | .txForceOn | .txForceOff
  | .pullSclIn | .pullSdaIn | .pullSclOut | .pullSdaOut => true
  | _ => false

/-- Is the action the logging of the reset cause (line 130)? -/
def isResetCauseLog : Act → Bool
  | .jotResetCause _ => true
  | _ => false

/-- Is the action the read of the reset cause (lines 117-128)? -/
def isReadResetCause : Act → Bool
  | .readResetCause => true
  | _ => false

/-- Is the action the opening of the modem UART (line 159)? -/
def isUartOpenAct : Act → Bool
  | .uartOpen => true
  | _ => false

/-- Is the action the modem power-on primitive (line 169)? -/
def isEnableNm3Act : Act → Bool
  | .enableNm3 => true
  | _ => false

/-- `b'USMRT'` (line 253). -/
def usmrtBytes : List Nat := [85, 83, 77, 82, 84]

/-- `b'USOTA'` (line 259). -/
def usotaBytes : List Nat := [85, 83, 79, 84, 65]

/-- `b'USPNG'` (line 277). -/
def uspngBytes : List Nat := [85, 83, 80, 78, 71]

/-- `b'USMOD'` (line 282). -/
def usmodBytes : List Nat := [85, 83, 77, 79, 68]

/-- `str(version if version else "None")` (line 295): a `None` or empty
(falsy) version prints as `"None"`. -/
def pyStrOfVersion : Option String → String
  | none => "None"
  | some v => if v.isEmpty then "None" else v

/-- The per-module broadcast payload of lines 294-295:
`"UM" + "{:03d}".format(address) + ":" + module + ":" + version`. -/
def modString (addr : Nat) (m : String) (v : Option String) : String :=
  "UM" ++ fmt3 addr ++ ":" ++ m ++ ":" ++ pyStrOfVersion v

/-- The `for (mod, version) in installed_modules.items()` loop of lines
293-302: per module, one broadcast, a 1000 ms pause, a watchdog feed.
The association list carries the dict's (insertion-ordered) items. -/
def modSends (addr : Nat) : List (String × Option String) → List Act
  | [] => []
  | (m, v) :: rest =>
    Act.sendBroadcast (modString addr m v) :: Act.sleepMs 1000 :: Act.feed
      :: modSends addr rest

/-- Line 253: `message_packet.packet_payload and bytes(...) == b'USMRT'`. -/
def matchesUSMRT (p : List Nat) : Bool := !p.isEmpty && p == usmrtBytes

/-- Line 259: exact match against `b'USOTA'`. -/
def matchesUSOTA (p : List Nat) : Bool := !p.isEmpty && p == usotaBytes

/-- Line 277: exact match against `b'USPNG'`. -/
def matchesUSPNG (p : List Nat) : Bool := !p.isEmpty && p == uspngBytes

/-- Line 282: exact match against `b'USMOD'`. -/
def matchesUSMOD (p : List Nat) : Bool := !p.isEmpty && p == usmodBytes

/-- Lines 307-308: nonempty payload of length > 2 whose first byte is
`b'#'` (35). -/
def matchesNetwork (p : List Nat) : Bool :=
  !p.isEmpty && decide (2 < p.length) && p.take 1 == [35]

/-- Number of dispatch categories a payload matches. -/
def matchCount (p : List Nat) : Nat :=
  (matchesUSMRT p).toNat + (matchesUSOTA p).toNat + (matchesUSPNG p).toNat
    + (matchesUSMOD p).toNat + (matchesNetwork p).toNat

/-- Dispatch of one received packet's payload, lines 252-318.  `mods` is
the `installedModules` entry of the injected `_env_variables` dictionary
(`none` when `_env_variables` is falsy or lacks the key), `addr`/`volt`
the modem's address and formatted voltage, `otaFails` whether the
`.USOTA` flag-file write raises.  Returns the actions performed in order
and whether `machine.reset()` was reached (nothing executes after a
reset).  The source checks the categories in this order with separate
`if` statements; the two reset-ending branches never fall through. -/
def processPacket (p : List Nat) (mods : Option (List (String × Option String)))
    (addr : Nat) (volt : String) (otaFails : Bool) : List Act × Bool :=
  if matchesUSMRT p then
    -- lines 253-257: jot, then reset the device
    ([Act.jot "Reset message received.", Act.reset], true)
  else if matchesUSOTA p then
    -- lines 259-275: jot, attempt the .USOTA flag write (logging a raised
    -- exception), then reset the device in either case
    ([Act.jot "OTA message received.", Act.otaFlagWrite (!otaFails)]
       ++ (if otaFails then [Act.jotException "ota-flag-write"] else [])
       ++ [Act.reset], true)
  else
    ((if matchesUSPNG p then
        -- lines 277-280: jot, re-send the alive broadcast
        Act.jot "PNG message received." :: aliveMsgActs addr volt
      else [])
       ++ (if matchesUSMOD p then
             -- lines 282-302: jot, query the address, then one broadcast
             -- per installed module (when the env data is present/truthy)
             Act.jot "MOD message received." :: Act.getAddress ::
               (match mods with
                | some l => if !l.isEmpty then modSends addr l else []
                | none => [])
           else [])
       ++ (if matchesNetwork p then
             -- lines 307-316: wrap the network handoff in gc.collect()
             [Act.gcCollect, Act.networkForward p, Act.gcCollect]
           else []),
     false)

/-- The dispatcher actions the spec's table names as externally observable
outcomes: broadcast sends, device reset, the persistent flag write, and
the network forward. -/
def isDispatchOutput : Act → Bool
  | .sendBroadcast _ | .reset | .otaFlagWrite _ | .networkForward _ => true
  | _ => false

/-- Line 230's poll-window condition:
`_nm3_callback_flag or (utime.time() < _nm3_callback_seconds + 30)`. -/
def pollCond (flag : Bool) (now sec : Nat) : Bool :=
  flag || decide (now < sec + 30)

/-- Line 323's sleep condition:
`(not _nm3_callback_flag) and (utime.time() > _nm3_callback_seconds + 30)`. -/
def sleepCond (flag : Bool) (now sec : Nat) : Bool :=
  !flag && decide (now > sec + 30)

/-- Apply an optional interrupt edge to the globals. -/
def applyOptEdge : Option EdgeData → Wake → Wake
  | some e, w => isr e w
  | none, w => w

/-- The environment of one `while True` iteration (lines 220-365): the
wall-clock reads, the packets the modem yields, the injected module
configuration, and where interrupt edges fire relative to the iteration's
steps.  `sleepCycles`/`sleepEdge` describe the feed-and-lightsleep loop of
lines 340-346: the loop body runs `sleepCycles + 1` times and the edge
`sleepEdge` arrives during the last lightsleep (the loop can only exit
when an edge sets the flag).  `fault` is an exception raised by the
iteration body, modelled as raised after the body's actions and caught by
the `except` clause of lines 361-365. -/
structure IterEnv where
  beforeEdges : List EdgeData      -- edges since the previous iteration
  now1 : Nat                       -- utime.time() at line 230
  now2 : Nat                       -- utime.time() at line 323
  inbox : List (List Nat)          -- payloads drained at lines 241-246
  mods : Option (List (String × Option String))
  addr : Nat
  volt : String
  otaFails : Bool
  edgeDuringPoll : Option EdgeData -- an edge between line 234 and line 323
  edgeAtRecheck : Option EdgeData  -- an edge between line 323 and line 326
  sleepCycles : Nat
  sleepEdge : EdgeData
  fault : Option String
deriving DecidableEq

/-- Per-packet actions preceding dispatch (lines 242-250): the print and
log lines, `get_received_packet()`, and the copy of the three timestamp
globals onto the packet. -/
def packetPre (w1 : Wake) : List Act :=
  [Act.printAct "Has received nm3 message.", Act.jot "Has received nm3 message.",
   Act.getPacket, Act.copyTimestamps w1.seconds w1.millis w1.micros]

/-- The `while nm3_modem.has_received_packet()` drain loop (lines
241-318): each available packet is fetched, timestamped from the globals
and dispatched; a `machine.reset()` inside dispatch ends execution, so
later packets are not processed.  Returns the actions and whether a reset
was reached. -/
def drainPackets (inbox : List (List Nat))
    (mods : Option (List (String × Option String))) (addr : Nat)
    (volt : String) (otaFails : Bool) (w1 : Wake) : List Act × Bool :=
  match inbox with
  | [] => ([], false)
  | p :: rest =>
    if (processPacket p mods addr volt otaFails).2 then
      (packetPre w1 ++ (processPacket p mods addr volt otaFails).1, true)
    else
      (packetPre w1 ++ (processPacket p mods addr volt otaFails).1
         ++ (drainPackets rest mods addr volt otaFails w1).1,
       (drainPackets rest mods addr volt otaFails w1).2)

/-- The globals at the line-230 window check: the state left by the
previous iteration plus the edges that fired in between. -/
def wakeAtLine230 (env : IterEnv) (w : Wake) : Wake :=
  applyEdges env.beforeEdges w

/-- The poll/dispatch branch, lines 230-318: entered iff the line-230
condition holds; prints if the flag was set, clears the flag, polls and
parses the receiver, then drains all received packets.  Returns the
actions, the wake state it leaves, and whether a reset was reached. -/
def pollBranch (env : IterEnv) (w0 : Wake) : List Act × Wake × Bool :=
  if pollCond w0.flag env.now1 w0.seconds then
    ((if w0.flag then [Act.printAct "Has received nm3 synch flag."] else [])
       ++ [Act.pollReceiver, Act.processBuffer]
       ++ (drainPackets env.inbox env.mods env.addr env.volt env.otaFails
             { w0 with flag := false }).1,
     { w0 with flag := false },
     (drainPackets env.inbox env.mods env.addr env.volt env.otaFails
        { w0 with flag := false }).2)
  else ([], w0, false)

/-- Result of the poll branch for this iteration. -/
def pollRes (env : IterEnv) (w : Wake) : List Act × Wake × Bool :=
  pollBranch env (wakeAtLine230 env w)

/-- The globals at the line-323 sleep check: the state after the poll
branch plus any edge that fired during/after polling. -/
def wakeAtLine323 (env : IterEnv) (w : Wake) : Wake :=
  applyOptEdge env.edgeDuringPoll (pollRes env w).2.1

/-- The power-down half of the sequence, lines 327-338: log lines,
disable the I2C pull-ups, force the line-driver transmit off, disable the
logic rail, LED off, 10 ms settle. -/
def powerDownActs : List Act :=
  [Act.printAct "Going to sleep.", Act.jot "Going to sleep.",
   Act.pullSclIn, Act.pullSdaIn, Act.txForceOff, Act.en3v3Off, Act.ledOff,
   Act.sleepMs 10]

/-- The wake-up half, lines 348-357: feed, logic rail on, transmit on,
pull-ups on. -/
def wakeUpActs : List Act :=
  [Act.feed, Act.en3v3On, Act.txForceOn, Act.pullSclOut, Act.pullSdaOut]

/-- `n` executions of the body of the `while (not _nm3_callback_flag)`
loop, lines 340-346: feed the watchdog, then lightsleep. -/
def sleepLoopActs (n : Nat) : List Act :=
  (List.replicate n [Act.feed, Act.lightsleep]).flatten

/-- The sleep branch, lines 322-357.  `w2` is the global state at the
line-323 check, `er` an edge firing between the line-323 check and the
line-326 re-check.  When the branch is entered: the power-down half runs
only if the re-checked flag is still false; the feed-and-lightsleep loop
then runs until the flag is set (zero iterations when it is already set,
otherwise `cycles + 1` iterations ending with the arrival of `se`); the
wake-up half always runs before the branch exits. -/
def sleepBranch (w2 : Wake) (now2 : Nat) (er : Option EdgeData)
    (cycles : Nat) (se : EdgeData) : List Act × Wake :=
  if sleepCond w2.flag now2 w2.seconds then
    ((if !(applyOptEdge er w2).flag then powerDownActs else [])
       ++ (if (applyOptEdge er w2).flag then []
           else sleepLoopActs (cycles + 1))
       ++ wakeUpActs,
     if (applyOptEdge er w2).flag then applyOptEdge er w2
     else isr se (applyOptEdge er w2))
  else ([], w2)

/-- Result of the sleep branch for this iteration. -/
def sleepRes (env : IterEnv) (w : Wake) : List Act × Wake :=
  sleepBranch (wakeAtLine323 env w) env.now2 env.edgeAtRecheck
    env.sleepCycles env.sleepEdge

/-- Outcome of one iteration body: its actions in order, the wake-latch
state it leaves, and whether `machine.reset()` was reached. -/
structure IterResult where
  acts : List Act
  wake : Wake
  didReset : Bool
deriving DecidableEq

/-- One iteration of the `while True` body (lines 220-359): feed the
watchdog (line 223), re-enable the logic rail (line 226), run the poll
branch, then — unless a reset cut execution short — the sleep branch. -/
def iterActions (env : IterEnv) (w : Wake) : IterResult :=
  if (pollRes env w).2.2 then
    { acts := Act.feed :: Act.en3v3On :: (pollRes env w).1,
      wake := (pollRes env w).2.1, didReset := true }
  else
    { acts := Act.feed :: Act.en3v3On :: ((pollRes env w).1 ++ (sleepRes env w).1),
      wake := (sleepRes env w).2, didReset := false }

/-- State threaded through the `while True` loop: the wake latch, the
accumulated action trace, the number of completed iterations, and whether
the device reset (ending the process). -/
structure LoopSt where
  wake : Wake
  trace : List Act
  iters : Nat
  halted : Bool
deriving DecidableEq

/-- The `while True` loop (lines 220-368) observed for a finite list of
iteration environments.  Each iteration's body may raise (`env.fault`);
the `except Exception` clause of lines 361-365 logs the fault and the
loop continues.  A `machine.reset()` reboots the device, ending the run.
The `Except` result makes a propagating exception representable: an
uncaught fault would surface as `.error`. -/
def runLoop : List IterEnv → LoopSt → Except String LoopSt
  | [], s => .ok s
  | env :: rest, s =>
    if s.halted then .ok s
    else if (iterActions env s.wake).didReset then
      .ok { wake := (iterActions env s.wake).wake,
            trace := s.trace ++ (iterActions env s.wake).acts,
            iters := s.iters + 1, halted := true }
    else
      match env.fault with
      | some msg =>
        runLoop rest
          { wake := (iterActions env s.wake).wake,
            trace := s.trace ++ (iterActions env s.wake).acts
              ++ [Act.jotException msg],
            iters := s.iters + 1, halted := false }
      | none =>
        runLoop rest
          { wake := (iterActions env s.wake).wake,
            trace := s.trace ++ (iterActions env s.wake).acts,
            iters := s.iters + 1, halted := false }

/-- Actions of the startup trace before the feed at line 164. -/
def startupPrefixActs (cause : String) : List Act :=
  [Act.initWdt, Act.readResetCause, Act.jotResetCause cause,
   Act.printAct ("last_reset_cause=" ++ cause), Act.feed, Act.ledOn,
   Act.jot "Powering off NM3", Act.powerModuleInit, Act.disableNm3,
   Act.en3v3On, Act.pinY5Out, Act.maxInit, Act.txForceOn, Act.extIntClear,
   Act.extIntSet, Act.uartOpen, Act.nm3Init, Act.sleepMs 20]

/-- Actions of the startup trace after the feed at line 173. -/
def startupSuffixActs (addr : Nat) (volt statusLine : String) : List Act :=
  [Act.jot "NM3 running", Act.getAddress, Act.sleepMs 20, Act.getVoltage,
   Act.sleepMs 20, Act.printAct statusLine, Act.jot statusLine]
  ++ aliveMsgActs addr volt
  ++ [Act.feed, Act.sleepMs 500, Act.networkInit, Act.sleepMs 100,
      Act.feed, Act.uptimeStart]

/-- A quiet iteration environment: no edges, no packets, no fault, clock
well past the 30-second window. -/
def baseEnv : IterEnv :=
  { beforeEdges := [], now1 := 100, now2 := 100, inbox := [], mods := none,
    addr := 0, volt := "", otaFails := false, edgeDuringPoll := none,
    edgeAtRecheck := none, sleepCycles := 0,
    sleepEdge := { sec := 1, mil := 2, mic := 3 }, fault := none }

/-- The boundary iteration environment: both clock reads land exactly at
`last wake second + 30` for a latch started at second 0. -/
def c10Env : IterEnv :=
  { baseEnv with now1 := 30, now2 := 30 }

/-- An iteration environment whose body raises a fault. -/
def faultEnv : IterEnv :=
  { baseEnv with fault := some "boom" }

/-- Loop state at entry to the `while True` loop. -/
def initLoopSt : LoopSt :=
  { wake := initWake, trace := [], iters := 0, halted := false }

theorem applyEdges_nil (w : Wake) : applyEdges [] w = w := rfl

theorem applyEdges_cons (e : EdgeData) (es : List EdgeData) (w : Wake) :
    applyEdges (e :: es) w = applyEdges es (isr e w) := rfl

theorem applyEdges_flag (es : List EdgeData) (w : Wake) :
    (applyEdges es w).flag = (w.flag || !es.isEmpty) := by
  induction es generalizing w with
  | nil => simp [applyEdges]
  | cons e es ih =>
    rw [applyEdges_cons, ih]
    simp [isr]

theorem flagBit_applyEdges_le (es : List EdgeData) (w : Wake) :
    flagBit (applyEdges es w) ≤ es.length + flagBit w := by
  unfold flagBit
  rw [applyEdges_flag]
  cases hw : w.flag with
  | true =>
    cases es.isEmpty <;> simp
  | false =>
    cases es with
    | nil => simp
    | cons e es => simp

theorem consume_fst_flag (g : Gaps) (w : Wake) :
    flagBit (consume g w).1 ≤ g.g2.length + g.g3.length + g.g4.length := by
  have h : (consume g w).1.flag = (!g.g2.isEmpty || !g.g3.isEmpty || !g.g4.isEmpty) := by
    show (consumeW5 g w).flag = _
    unfold consumeW5 consumeW4 consumeW3
    simp [applyEdges_flag]
  unfold flagBit
  rw [h]
  cases hg2 : g.g2 <;> cases hg3 : g.g3 <;> cases hg4 : g.g4 <;> simp
  all_goals omega

theorem consume_snd_sawPending (g : Gaps) (w : Wake) :
    (consume g w).2.sawPending = w.flag := rfl

theorem isr_invSrc (e : EdgeData) (w : Wake) : InvSrc (isr e w) := by
  constructor <;> rfl

theorem applyEdges_invSrc (es : List EdgeData) (w : Wake) (h : InvSrc w) :
    InvSrc (applyEdges es w) := by
  induction es generalizing w with
  | nil => exact h
  | cons e es ih => exact ih (isr e w) (isr_invSrc e w)

theorem consumeW3_invSrc (g : Gaps) (w : Wake) (h : InvSrc w) :
    InvSrc (consumeW3 g w) := by
  unfold consumeW3
  apply applyEdges_invSrc
  exact applyEdges_invSrc g.g1 w h

theorem consume_fst_invSrc (g : Gaps) (w : Wake) (h : InvSrc w) :
    InvSrc (consume g w).1 := by
  show InvSrc (consumeW5 g w)
  unfold consumeW5 consumeW4
  apply applyEdges_invSrc
  apply applyEdges_invSrc
  exact consumeW3_invSrc g w h

theorem consume_consistent (g : Gaps) (w : Wake) (h : InvSrc w)
    (h3 : g.g3 = []) (h4 : g.g4 = []) : consistentSnap (consume g w).2 := by
  have hw4 : consumeW4 g w = consumeW3 g w := by
    unfold consumeW4; rw [h3]; exact applyEdges_nil _
  have hw5 : consumeW5 g w = consumeW3 g w := by
    unfold consumeW5; rw [h4, hw4]; exact applyEdges_nil _
  have hw3 := consumeW3_invSrc g w h
  show (consume g w).2.secSrc = (consume g w).2.msSrc
    ∧ (consume g w).2.msSrc = (consume g w).2.usSrc
  show (consumeW3 g w).secSrc = (consumeW4 g w).msSrc
    ∧ (consumeW4 g w).msSrc = (consumeW5 g w).usSrc
  rw [hw4, hw5]
  exact ⟨hw3.1, hw3.2⟩

theorem runTrace_obs_le (ts : List TraceStep) (w : Wake) :
    obsTrue (runTrace ts w).2 + flagBit (runTrace ts w).1
      ≤ totalEdges ts + flagBit w := by
  induction ts generalizing w with
  | nil => simp [runTrace, obsTrue, totalEdges]
  | cons t ts ih =>
    have h1 : flagBit (applyEdges t.before w) ≤ t.before.length + flagBit w :=
      flagBit_applyEdges_le t.before w
    have h2 : flagBit (consume t.gaps (applyEdges t.before w)).1
        ≤ t.gaps.g2.length + t.gaps.g3.length + t.gaps.g4.length :=
      consume_fst_flag t.gaps (applyEdges t.before w)
    have h3 := ih (consume t.gaps (applyEdges t.before w)).1
    have hobs : obsTrue ((consume t.gaps (applyEdges t.before w)).2
          :: (runTrace ts (consume t.gaps (applyEdges t.before w)).1).2)
        = obsTrue (runTrace ts (consume t.gaps (applyEdges t.before w)).1).2
            + flagBit (applyEdges t.before w) := by
      simp [obsTrue, flagBit, List.countP_cons, consume_snd_sawPending]
    have hedges : totalEdges (t :: ts) = totalEdgesStep t + totalEdges ts := by
      unfold totalEdges
      simp
    show obsTrue ((consume t.gaps (applyEdges t.before w)).2
          :: (runTrace ts (consume t.gaps (applyEdges t.before w)).1).2)
        + flagBit (runTrace ts (consume t.gaps (applyEdges t.before w)).1).1
      ≤ totalEdges (t :: ts) + flagBit w
    rw [hobs, hedges]
    unfold totalEdgesStep
    omega

theorem runTrace_consistent (ts : List TraceStep) (w : Wake) (h : InvSrc w) :
    ∀ p ∈ ts.zip (runTrace ts w).2,
      p.1.gaps.g3 = [] → p.1.gaps.g4 = [] → consistentSnap p.2 := by
  induction ts generalizing w with
  | nil => intro p hp; simp [runTrace] at hp
  | cons t ts ih =>
    intro p hp h3 h4
    simp only [runTrace, List.zip_cons_cons, List.mem_cons] at hp
    rcases hp with hp | hp
    · subst hp
      exact consume_consistent t.gaps (applyEdges t.before w)
        (applyEdges_invSrc t.before w h) h3 h4
    · exact ih (consume t.gaps (applyEdges t.before w)).1
        (consume_fst_invSrc t.gaps (applyEdges t.before w)
          (applyEdges_invSrc t.before w h)) p hp h3 h4

/-- C1 (counterexample): the claim "the three timestamp fields read by the
main loop for one consumption all originate from the same single edge"
fails on the code.  Concretely, with one edge before the consumption and a
second edge firing between the main loop's read of
`_nm3_callback_seconds` (line 248) and its read of `_nm3_callback_millis`
(line 249), the snapshot copies the seconds value written by edge 1 and
the millis/micros values written by edge 2. -/
theorem c1_latch_counterexample :
    (runTrace cexTrace initWake).2
        = [{ sawPending := true, sec := 100, mil := 9, mic := 11,
             secSrc := 1, msSrc := 2, usSrc := 2 }]
      ∧ ¬ (consistentSnap { sawPending := true, sec := 100, mil := 9, mic := 11,
                            secSrc := 1, msSrc := 2, usSrc := 2 }) := by
  decide

/-- C1 (amended): for every interleaved sequence of interrupt edges
(`nm3_callback` invocations) and main-loop consumptions of the latch, the
number of times the main loop observes the pending flag true is at most
the number of edges; and the three timestamp fields read for one
consumption all originate from the same single edge provided no interrupt
edge fires between the three timestamp reads (lines 248-250).  (The
unconditional no-mixing statement of the claim is refuted by
`c1_latch_counterexample`.) -/
theorem c1_latch_amended (ts : List TraceStep) :
    obsTrue (runTrace ts initWake).2 ≤ totalEdges ts ∧
    ∀ p ∈ ts.zip (runTrace ts initWake).2,
      p.1.gaps.g3 = [] → p.1.gaps.g4 = [] → consistentSnap p.2 := by
  constructor
  · have h := runTrace_obs_le ts initWake
    have h0 : flagBit initWake = 0 := rfl
    omega
  · exact runTrace_consistent ts initWake ⟨rfl, rfl⟩

/-- Witness for `c1_latch_amended` at the concrete trace `witTrace`. -/
theorem c1_latch_amended_witness :
    obsTrue (runTrace witTrace initWake).2 ≤ totalEdges witTrace
      ∧ consistentSnap { sawPending := true, sec := 50, mil := 1, mic := 2,
                         secSrc := 1, msSrc := 1, usSrc := 1 } := by
  have h := c1_latch_amended witTrace
  refine ⟨h.1, h.2 ({ before := [{ sec := 50, mil := 1, mic := 2 }],
                      gaps := { g1 := [], g2 := [], g3 := [], g4 := [] } },
                    { sawPending := true, sec := 50, mil := 1, mic := 2,
                      secSrc := 1, msSrc := 1, usSrc := 1 }) ?_ rfl rfl⟩
  decide

/-- C2 (counterexample): the claim that every delay of at least 1000 ms
is immediately preceded and followed by a watchdog feed, with no other
delay-incurring step between, fails on the startup path: the first
10-second settle delay (line 168) is followed by `enable_nm3` and a
second 10-second delay (line 170) before the next feed (line 173). -/
theorem c2_feed_bracket_counterexample :
    feedsBracketDelays
      (startupTrace "WDT_RESET" 7 "4.50" "NM3 Address 007 Voltage 4.50V.")
      = false := by
  decide

/-- C5 (confirmed): for a received payload equal to the OTA marker
`b'USOTA'`, the dispatcher jots, attempts the `.USOTA` flag-record write,
logs the exception when the write raises, and in either case the action
sequence ends with the device reset (lines 259-275). -/
theorem c5_usota_dispatch (mods : Option (List (String × Option String)))
    (addr : Nat) (volt : String) (otaFails : Bool) :
    processPacket usotaBytes mods addr volt otaFails
        = ([Act.jot "OTA message received.", Act.otaFlagWrite (!otaFails)]
             ++ (if otaFails then [Act.jotException "ota-flag-write"] else [])
             ++ [Act.reset], true)
      ∧ (processPacket usotaBytes mods addr volt otaFails).1.getLast?
          = some Act.reset := by
  cases otaFails <;> exact ⟨rfl, rfl⟩

/-- C6 (confirmed): for a received payload equal to the reset marker
`b'USMRT'`, the dispatcher performs exactly the log line and one device
reset, and no other dispatch-table action fires (lines 253-257);
moreover every payload matches at most one dispatch category, so the
fixed first-match order can never fire two categories on one message. -/
theorem c6_usmrt_dispatch (mods : Option (List (String × Option String)))
    (addr : Nat) (volt : String) (otaFails : Bool) :
    processPacket usmrtBytes mods addr volt otaFails
        = ([Act.jot "Reset message received.", Act.reset], true)
      ∧ (processPacket usmrtBytes mods addr volt otaFails).1.countP
          (fun a => a == Act.reset) = 1
      ∧ (processPacket usmrtBytes mods addr volt otaFails).1.countP
          isDispatchOutput = 1
      ∧ ∀ q : List Nat, matchCount q ≤ 1 := by
  refine ⟨rfl, rfl, rfl, ?_⟩
  intro q
  by_cases h1 : q = usmrtBytes
  · subst h1; decide
  by_cases h2 : q = usotaBytes
  · subst h2; decide
  by_cases h3 : q = uspngBytes
  · subst h3; decide
  by_cases h4 : q = usmodBytes
  · subst h4; decide
  have b1 : (q == usmrtBytes) = false := by simpa using h1
  have b2 : (q == usotaBytes) = false := by simpa using h2
  have b3 : (q == uspngBytes) = false := by simpa using h3
  have b4 : (q == usmodBytes) = false := by simpa using h4
  unfold matchCount matchesUSMRT matchesUSOTA matchesUSPNG matchesUSMOD
  rw [b1, b2, b3, b4]
  cases matchesNetwork q <;> simp

/-- C7 (confirmed): for a received payload equal to `b'USMOD'`: with no
installed-module environment data the dispatcher performs none of the
observable dispatch-table actions (no broadcast, reset, flag write or
network forward) and does not reset; with installed modules
`{"alpha": "1.0", "beta": None}` and modem address 7, exactly two
broadcasts are sent in mapping order, `UM007:alpha:1.0` then
`UM007:beta:None`, each followed by the 1000 ms pause and a watchdog feed
(lines 282-302). -/
theorem c7_usmod_dispatch (addr : Nat) (volt : String) (otaFails : Bool) :
    ((processPacket usmodBytes none addr volt otaFails).1.filter
        isDispatchOutput = []
      ∧ (processPacket usmodBytes none addr volt otaFails).2 = false)
    ∧ processPacket usmodBytes
        (some [("alpha", some "1.0"), ("beta", none)]) 7 volt otaFails
      = ([Act.jot "MOD message received.", Act.getAddress,
          Act.sendBroadcast "UM007:alpha:1.0", Act.sleepMs 1000, Act.feed,
          Act.sendBroadcast "UM007:beta:None", Act.sleepMs 1000, Act.feed],
         false) := by
  exact ⟨⟨rfl, rfl⟩, rfl⟩

/-- C9 (confirmed): in the startup sequence the last reset cause is read
and logged before any power rail or line-driver pin is touched (the first
rail action, `disable_nm3` at line 144, comes after the log at line 130),
and the modem UART is opened (line 159) before the modem power-on
primitive `enable_nm3` (line 169). -/
theorem c9_startup_order (cause : String) (addr : Nat)
    (volt statusLine : String) :
    (((startupTrace cause addr volt statusLine).takeWhile
          (fun x => !isRailOrLinePin x)).any isReadResetCause
      && ((startupTrace cause addr volt statusLine).takeWhile
          (fun x => !isRailOrLinePin x)).any isResetCauseLog
      && ((startupTrace cause addr volt statusLine).takeWhile
          (fun x => !isEnableNm3Act x)).any isUartOpenAct) = true := rfl

theorem modSends_mem (addr : Nat) (l : List (String × Option String)) (a : Act)
    (h : a ∈ modSends addr l) :
    (∃ s, a = Act.sendBroadcast s) ∨ a = Act.sleepMs 1000 ∨ a = Act.feed := by
  induction l with
  | nil => cases h
  | cons mv rest ih =>
    obtain ⟨m, v⟩ := mv
    simp only [modSends, List.mem_cons] at h
    rcases h with h | h | h | h
    · exact Or.inl ⟨_, h⟩
    · exact Or.inr (Or.inl h)
    · exact Or.inr (Or.inr h)
    · exact ih h

theorem mem_sleepLoopActs (n : Nat) (a : Act) (h : a ∈ sleepLoopActs n) :
    a = Act.feed ∨ a = Act.lightsleep := by
  unfold sleepLoopActs at h
  rw [List.mem_flatten] at h
  obtain ⟨l, hl, hm⟩ := h
  have hrep := List.eq_of_mem_replicate hl
  subst hrep
  simpa using hm

theorem aliveMsgActs_mem (addr : Nat) (volt : String) (a : Act)
    (h : a ∈ aliveMsgActs addr volt) :
    a = Act.getAddress ∨ a = Act.sleepMs 20 ∨ a = Act.getVoltage
      ∨ (∃ s, a = Act.sendBroadcast s) := by
  simp only [aliveMsgActs, List.mem_cons, List.not_mem_nil, or_false] at h
  rcases h with h | h | h | h | h
  · exact Or.inl h
  · exact Or.inr (Or.inl h)
  · exact Or.inr (Or.inr (Or.inl h))
  · exact Or.inr (Or.inl h)
  · exact Or.inr (Or.inr (Or.inr ⟨_, h⟩))

theorem en3v3Off_notin_processPacket (p : List Nat)
    (mods : Option (List (String × Option String))) (addr : Nat)
    (volt : String) (oF : Bool) :
    Act.en3v3Off ∉ (processPacket p mods addr volt oF).1 := by
  intro h
  unfold processPacket at h
  cases mods with
  | none =>
    split_ifs at h <;> simp [aliveMsgActs] at h
  | some l =>
    split_ifs at h <;> simp [aliveMsgActs] at h <;>
      rcases modSends_mem addr l _ h.2 with ⟨s, h6⟩ | h6 | h6 <;> simp at h6

theorem en3v3Off_notin_drain (inbox : List (List Nat))
    (mods : Option (List (String × Option String))) (addr : Nat)
    (volt : String) (oF : Bool) (w1 : Wake) :
    Act.en3v3Off ∉ (drainPackets inbox mods addr volt oF w1).1 := by
  induction inbox with
  | nil => simp [drainPackets]
  | cons p rest ih =>
    intro h
    unfold drainPackets at h
    split_ifs at h <;> simp only [List.mem_append] at h
    · rcases h with h | h
      · simp [packetPre] at h
      · exact en3v3Off_notin_processPacket p mods addr volt oF h
    · rcases h with (h | h) | h
      · simp [packetPre] at h
      · exact en3v3Off_notin_processPacket p mods addr volt oF h
      · exact ih h

theorem en3v3Off_notin_pollRes (env : IterEnv) (w : Wake) :
    Act.en3v3Off ∉ (pollRes env w).1 := by
  intro h
  unfold pollRes pollBranch at h
  split_ifs at h <;> simp only [List.mem_append] at h
  · rcases h with (h | h) | h
    · simp at h
    · simp at h
    · exact en3v3Off_notin_drain _ _ _ _ _ _ h
  · rcases h with (h | h) | h
    · simp at h
    · simp at h
    · exact en3v3Off_notin_drain _ _ _ _ _ _ h
  · simp at h

theorem sleepBranch_acts_cases (w2 : Wake) (now2 : Nat)
    (er : Option EdgeData) (cycles : Nat) (se : EdgeData) :
    (sleepBranch w2 now2 er cycles se).1 = []
    ∨ (sleepBranch w2 now2 er cycles se).1
        = powerDownActs ++ sleepLoopActs (cycles + 1) ++ wakeUpActs
    ∨ (sleepBranch w2 now2 er cycles se).1 = wakeUpActs := by
  unfold sleepBranch
  cases hs : sleepCond w2.flag now2 w2.seconds with
  | false => left; simp
  | true =>
    cases hf : (applyOptEdge er w2).flag with
    | false => right; left; simp [hf]
    | true => right; right; simp [hf]

theorem pollReceiver_notin_sleepBranch (w2 : Wake) (now2 : Nat)
    (er : Option EdgeData) (cycles : Nat) (se : EdgeData) :
    Act.pollReceiver ∉ (sleepBranch w2 now2 er cycles se).1 := by
  intro h
  rcases sleepBranch_acts_cases w2 now2 er cycles se with hc | hc | hc <;>
    rw [hc] at h
  · cases h
  · simp only [List.mem_append] at h
    rcases h with (h | h) | h
    · simp [powerDownActs] at h
    · rcases mem_sleepLoopActs _ _ h with h6 | h6 <;> simp at h6
    · simp [wakeUpActs] at h
  · simp [wakeUpActs] at h

theorem en3v3Off_notin_sleepLoopAndWake (cycles : Nat) :
    Act.en3v3Off ∉ sleepLoopActs (cycles + 1) ∧ Act.en3v3Off ∉ wakeUpActs := by
  constructor
  · intro h
    rcases mem_sleepLoopActs _ _ h with h6 | h6 <;> simp at h6
  · intro h
    simp [wakeUpActs] at h

theorem sleepCond_true_elim {flag : Bool} {now sec : Nat}
    (h : sleepCond flag now sec = true) : flag = false ∧ sec + 30 < now := by
  unfold sleepCond at h
  simp only [Bool.and_eq_true, Bool.not_eq_true', decide_eq_true_eq] at h
  exact h

theorem en3v3Off_mem_sleepBranch_iff (w2 : Wake) (now2 : Nat)
    (er : Option EdgeData) (cycles : Nat) (se : EdgeData) :
    Act.en3v3Off ∈ (sleepBranch w2 now2 er cycles se).1
      ↔ (w2.flag = false ∧ w2.seconds + 30 < now2 ∧ er = none) := by
  unfold sleepBranch
  cases hs : sleepCond w2.flag now2 w2.seconds with
  | false =>
    apply iff_of_false
    · simp
    · rintro ⟨h1, h2, h3⟩
      unfold sleepCond at hs
      simp only [h1, Bool.not_false, Bool.true_and, decide_eq_false_iff_not] at hs
      exact hs h2
  | true =>
    obtain ⟨hf, hlt⟩ := sleepCond_true_elim hs
    cases her : er with
    | none =>
      apply iff_of_true
      · simp [applyOptEdge, hf, powerDownActs]
      · exact ⟨hf, hlt, rfl⟩
    | some e =>
      apply iff_of_false
      · simp [applyOptEdge, isr, wakeUpActs]
      · rintro ⟨h1, h2, h3⟩
        cases h3

/-- C3 (confirmed): in an iteration not cut short by a reset, the sleep
half of the power sequence (en3v3Off marks the rail disable of lines
331-338) is executed iff, at the line-326 re-check, the pending flag is
still false — i.e. it was false at line 323, more than 30 seconds have
elapsed since the last captured wake second, and no edge fired between
the check and the re-check; when it is executed the branch continues with
the feed-and-lightsleep loop, which runs until an interrupt edge sets the
flag, and the branch ends with the flag true. -/
theorem c3_sleep_transition (env : IterEnv) (w : Wake)
    (hnr : (iterActions env w).didReset = false) :
    (Act.en3v3Off ∈ (iterActions env w).acts
       ↔ ((wakeAtLine323 env w).flag = false
           ∧ (wakeAtLine323 env w).seconds + 30 < env.now2
           ∧ env.edgeAtRecheck = none))
    ∧ ((wakeAtLine323 env w).flag = false →
        (wakeAtLine323 env w).seconds + 30 < env.now2 →
        env.edgeAtRecheck = none →
        (sleepRes env w).1
            = powerDownActs ++ sleepLoopActs (env.sleepCycles + 1) ++ wakeUpActs
          ∧ (sleepRes env w).2.flag = true) := by
  have hp : (pollRes env w).2.2 = false := by
    by_contra hc
    simp only [Bool.not_eq_false] at hc
    simp [iterActions, hc] at hnr
  have hacts : (iterActions env w).acts
      = Act.feed :: Act.en3v3On :: ((pollRes env w).1 ++ (sleepRes env w).1) := by
    simp [iterActions, hp]
  have hiff := en3v3Off_mem_sleepBranch_iff (wakeAtLine323 env w) env.now2
    env.edgeAtRecheck env.sleepCycles env.sleepEdge
  constructor
  · rw [hacts]
    constructor
    · intro hm
      simp only [List.mem_cons, List.mem_append] at hm
      rcases hm with h | h | h | h
      · simp at h
      · simp at h
      · exact absurd h (en3v3Off_notin_pollRes env w)
      · exact hiff.mp h
    · intro hc
      have hm := hiff.mpr hc
      simp only [List.mem_cons, List.mem_append]
      right; right; right
      exact hm
  · intro h1 h2 h3
    have hsc : sleepCond (wakeAtLine323 env w).flag env.now2
        (wakeAtLine323 env w).seconds = true := by
      unfold sleepCond
      simp [h1, h2]
    rw [h1] at hsc
    constructor
    · unfold sleepRes sleepBranch
      simp [hsc, h3, applyOptEdge, h1, List.append_assoc]
    · unfold sleepRes sleepBranch
      simp [hsc, h3, applyOptEdge, h1, isr]

/-- Witness for `c3_sleep_transition`: a quiet iteration (no packets, no
edges, clock past the window) does take the sleep transition. -/
theorem c3_sleep_transition_witness :
    (iterActions baseEnv initWake).didReset = false
    ∧ ((Act.en3v3Off ∈ (iterActions baseEnv initWake).acts
          ↔ ((wakeAtLine323 baseEnv initWake).flag = false
              ∧ (wakeAtLine323 baseEnv initWake).seconds + 30 < baseEnv.now2
              ∧ baseEnv.edgeAtRecheck = none))
        ∧ ((wakeAtLine323 baseEnv initWake).flag = false →
            (wakeAtLine323 baseEnv initWake).seconds + 30 < baseEnv.now2 →
            baseEnv.edgeAtRecheck = none →
            (sleepRes baseEnv initWake).1
                = powerDownActs ++ sleepLoopActs (baseEnv.sleepCycles + 1)
                    ++ wakeUpActs
              ∧ (sleepRes baseEnv initWake).2.flag = true)) :=
  ⟨by decide, c3_sleep_transition baseEnv initWake (by decide)⟩

theorem pollReceiver_mem_iff (env : IterEnv) (w : Wake) :
    Act.pollReceiver ∈ (iterActions env w).acts
      ↔ pollCond (wakeAtLine230 env w).flag env.now1
          (wakeAtLine230 env w).seconds = true := by
  cases hc : pollCond (wakeAtLine230 env w).flag env.now1
      (wakeAtLine230 env w).seconds with
  | true =>
    apply iff_of_true _ rfl
    have hacts : Act.pollReceiver ∈ (pollRes env w).1 := by
      unfold pollRes pollBranch
      rw [hc]
      simp
    unfold iterActions
    split_ifs with hr <;> simp only [List.mem_cons, List.mem_append]
    · right; right; exact hacts
    · right; right; left; exact hacts
  | false =>
    have hpoll : pollRes env w = ([], wakeAtLine230 env w, false) := by
      unfold pollRes pollBranch
      rw [hc]
      simp
    apply iff_of_false _ (by simp)
    intro hm
    unfold iterActions at hm
    rw [hpoll] at hm
    simp at hm
    exact absurd hm (pollReceiver_notin_sleepBranch _ _ _ _ _)

/-- C4 (confirmed): in every loop iteration the polling/dispatch branch is
entered iff the line-230 condition holds — the pending flag is true or the
wall clock is strictly below the last captured wake second plus 30 — and
the decision is a function of exactly the shared wake state (flag and
captured second) and the current time, recomputed each iteration:
two iterations agreeing on those three values make the same decision. -/
theorem c4_poll_window (env : IterEnv) (w : Wake) :
    (Act.pollReceiver ∈ (iterActions env w).acts
       ↔ pollCond (wakeAtLine230 env w).flag env.now1
           (wakeAtLine230 env w).seconds = true)
    ∧ (∀ (env2 : IterEnv) (w2 : Wake),
        (wakeAtLine230 env2 w2).flag = (wakeAtLine230 env w).flag →
        (wakeAtLine230 env2 w2).seconds = (wakeAtLine230 env w).seconds →
        env2.now1 = env.now1 →
        (Act.pollReceiver ∈ (iterActions env2 w2).acts
           ↔ Act.pollReceiver ∈ (iterActions env w).acts)) := by
  refine ⟨pollReceiver_mem_iff env w, ?_⟩
  intro env2 w2 hf hs hn
  rw [pollReceiver_mem_iff env w, pollReceiver_mem_iff env2 w2, hf, hs, hn]

/-- Witness for `c4_poll_window`: a quiet iteration at second 100 with a
latch captured at second 0 does not poll, matching the condition. -/
theorem c4_poll_window_witness :
    (Act.pollReceiver ∈ (iterActions baseEnv initWake).acts
       ↔ pollCond (wakeAtLine230 baseEnv initWake).flag baseEnv.now1
           (wakeAtLine230 baseEnv initWake).seconds = true)
    ∧ (Act.pollReceiver ∈ (iterActions baseEnv initWake).acts
         ↔ Act.pollReceiver ∈ (iterActions baseEnv initWake).acts) :=
  ⟨(c4_poll_window baseEnv initWake).1,
   (c4_poll_window baseEnv initWake).2 baseEnv initWake rfl rfl rfl⟩

/-- C10 (confirmed): at the exact boundary instant — pending flag false
and both wall-clock reads equal to the last captured wake second plus 30,
with no edge arriving mid-iteration — the iteration takes neither branch:
the poll condition (strict `<`) and the sleep condition (strict `>`) are
both false, and the iteration performs only the watchdog feed and the
rail re-enable. -/
theorem c10_boundary_iteration (env : IterEnv) (w : Wake)
    (hflag : (wakeAtLine230 env w).flag = false)
    (hnow1 : env.now1 = (wakeAtLine230 env w).seconds + 30)
    (hnow2 : env.now2 = (wakeAtLine230 env w).seconds + 30)
    (hep : env.edgeDuringPoll = none) :
    (iterActions env w).acts = [Act.feed, Act.en3v3On]
    ∧ pollCond (wakeAtLine230 env w).flag env.now1
        (wakeAtLine230 env w).seconds = false
    ∧ sleepCond (wakeAtLine323 env w).flag env.now2
        (wakeAtLine323 env w).seconds = false := by
  have hpc : pollCond (wakeAtLine230 env w).flag env.now1
      (wakeAtLine230 env w).seconds = false := by
    unfold pollCond
    simp [hflag, hnow1]
  have hpoll : pollRes env w = ([], wakeAtLine230 env w, false) := by
    unfold pollRes pollBranch
    rw [hpc]
    simp
  have h323 : wakeAtLine323 env w = wakeAtLine230 env w := by
    unfold wakeAtLine323
    rw [hpoll, hep]
    rfl
  have hsc : sleepCond (wakeAtLine323 env w).flag env.now2
      (wakeAtLine323 env w).seconds = false := by
    rw [h323]
    unfold sleepCond
    simp [hflag, hnow2]
  have hsleep : sleepRes env w = ([], wakeAtLine323 env w) := by
    unfold sleepRes sleepBranch
    rw [hsc]
    simp
  refine ⟨?_, hpc, hsc⟩
  unfold iterActions
  rw [hpoll, hsleep]
  simp

/-- Witness for `c10_boundary_iteration` at the concrete boundary
environment `c10Env` (latch at second 0, both clock reads at 30). -/
theorem c10_boundary_iteration_witness :
    (wakeAtLine230 c10Env initWake).flag = false
    ∧ ((iterActions c10Env initWake).acts = [Act.feed, Act.en3v3On]
        ∧ pollCond (wakeAtLine230 c10Env initWake).flag c10Env.now1
            (wakeAtLine230 c10Env initWake).seconds = false
        ∧ sleepCond (wakeAtLine323 c10Env initWake).flag c10Env.now2
            (wakeAtLine323 c10Env initWake).seconds = false) :=
  ⟨by decide,
   c10_boundary_iteration c10Env initWake (by decide) (by decide) (by decide) rfl⟩

theorem processPacket_snd_eq (p : List Nat)
    (mods : Option (List (String × Option String))) (addr : Nat)
    (volt : String) (oF : Bool) :
    (processPacket p mods addr volt oF).2
      = (matchesUSMRT p || matchesUSOTA p) := by
  unfold processPacket
  split_ifs <;> simp_all

theorem matchesUSMRT_eq_false {p : List Nat} (h : p ≠ usmrtBytes) :
    matchesUSMRT p = false := by
  unfold matchesUSMRT
  simp [h]

theorem matchesUSOTA_eq_false {p : List Nat} (h : p ≠ usotaBytes) :
    matchesUSOTA p = false := by
  unfold matchesUSOTA
  simp [h]

theorem drainPackets_snd_eq_false (inbox : List (List Nat))
    (mods : Option (List (String × Option String))) (addr : Nat)
    (volt : String) (oF : Bool) (w1 : Wake)
    (h : ∀ p ∈ inbox, p ≠ usmrtBytes ∧ p ≠ usotaBytes) :
    (drainPackets inbox mods addr volt oF w1).2 = false := by
  induction inbox with
  | nil => rfl
  | cons p rest ih =>
    have hp := h p (List.mem_cons_self p rest)
    have hsnd : (processPacket p mods addr volt oF).2 = false := by
      rw [processPacket_snd_eq, matchesUSMRT_eq_false hp.1,
        matchesUSOTA_eq_false hp.2]
      rfl
    unfold drainPackets
    rw [hsnd]
    simp only [Bool.false_eq_true, if_false]
    exact ih (fun q hq => h q (List.mem_cons_of_mem p hq))

theorem iter_noReset (env : IterEnv) (w : Wake)
    (h : ∀ p ∈ env.inbox, p ≠ usmrtBytes ∧ p ≠ usotaBytes) :
    (iterActions env w).didReset = false := by
  have hd : (pollRes env w).2.2 = false := by
    unfold pollRes pollBranch
    split_ifs with hc hf
    · exact drainPackets_snd_eq_false _ _ _ _ _ _ h
    · exact drainPackets_snd_eq_false _ _ _ _ _ _ h
    · rfl
  simp [iterActions, hd]

/-- C8 (confirmed): (a) for every sequence of iteration environments the
loop yields a state and never a propagated exception — every fault raised
inside an iteration body is caught at the loop boundary; (b) a faulting
iteration appends the fault log (lines 361-365) and the loop proceeds to
the next iteration; (c) the loop never terminates of itself: absent a
device reset (the reset-command payloads), it performs every iteration
offered, however many faults occur. -/
theorem c8_loop_fault_containment :
    (∀ (envs : List IterEnv) (s : LoopSt), ∃ s2, runLoop envs s = Except.ok s2)
    ∧ (∀ (env : IterEnv) (rest : List IterEnv) (s : LoopSt) (msg : String),
        s.halted = false → env.fault = some msg →
        (iterActions env s.wake).didReset = false →
        runLoop (env :: rest) s
          = runLoop rest
              { wake := (iterActions env s.wake).wake,
                trace := s.trace ++ (iterActions env s.wake).acts
                  ++ [Act.jotException msg],
                iters := s.iters + 1, halted := false })
    ∧ (∀ (envs : List IterEnv) (s : LoopSt),
        s.halted = false →
        (∀ env ∈ envs, ∀ p ∈ env.inbox, p ≠ usmrtBytes ∧ p ≠ usotaBytes) →
        ∃ s2, runLoop envs s = Except.ok s2
          ∧ s2.iters = s.iters + envs.length) := by
  refine ⟨?_, ?_, ?_⟩
  · intro envs
    induction envs with
    | nil => intro s; exact ⟨s, rfl⟩
    | cons env rest ih =>
      intro s
      by_cases hh : s.halted
      · exact ⟨s, by simp [runLoop, hh]⟩
      · by_cases hr : (iterActions env s.wake).didReset
        · exact ⟨{ wake := (iterActions env s.wake).wake,
                   trace := s.trace ++ (iterActions env s.wake).acts,
                   iters := s.iters + 1, halted := true },
                 by simp [runLoop, hh, hr]⟩
        · cases hf : env.fault with
          | some msg =>
            obtain ⟨s2, h2⟩ := ih
              { wake := (iterActions env s.wake).wake,
                trace := s.trace ++ ((iterActions env s.wake).acts
                  ++ [Act.jotException msg]),
                iters := s.iters + 1, halted := false }
            exact ⟨s2, by simp [runLoop, hh, hr, hf, h2]⟩
          | none =>
            obtain ⟨s2, h2⟩ := ih
              { wake := (iterActions env s.wake).wake,
                trace := s.trace ++ (iterActions env s.wake).acts,
                iters := s.iters + 1, halted := false }
            exact ⟨s2, by simp [runLoop, hh, hr, hf, h2]⟩
  · intro env rest s msg h1 h2 h3
    simp [runLoop, h1, h3, h2]
  · intro envs
    induction envs with
    | nil =>
      intro s h1 h2
      exact ⟨s, rfl, by simp⟩
    | cons env rest ih =>
      intro s h1 h2
      have hnr : (iterActions env s.wake).didReset = false :=
        iter_noReset env s.wake (h2 env (List.mem_cons_self env rest))
      have h2' : ∀ e ∈ rest, ∀ p ∈ e.inbox, p ≠ usmrtBytes ∧ p ≠ usotaBytes :=
        fun e he => h2 e (List.mem_cons_of_mem env he)
      cases hf : env.fault with
      | some msg =>
        obtain ⟨s2, hs2, hi⟩ := ih
          { wake := (iterActions env s.wake).wake,
            trace := s.trace ++ ((iterActions env s.wake).acts
              ++ [Act.jotException msg]),
            iters := s.iters + 1, halted := false } rfl h2'
        refine ⟨s2, by simp [runLoop, h1, hnr, hf, hs2], ?_⟩
        rw [hi]
        simp only [List.length_cons]
        omega
      | none =>
        obtain ⟨s2, hs2, hi⟩ := ih
          { wake := (iterActions env s.wake).wake,
            trace := s.trace ++ (iterActions env s.wake).acts,
            iters := s.iters + 1, halted := false } rfl h2'
        refine ⟨s2, by simp [runLoop, h1, hnr, hf, hs2], ?_⟩
        rw [hi]
        simp only [List.length_cons]
        omega

/-- Witness for `c8_loop_fault_containment`: one faulting, packet-free
iteration is caught, logged and the loop completes its iteration. -/
theorem c8_loop_fault_containment_witness :
    (∃ s2, runLoop [faultEnv] initLoopSt = Except.ok s2)
    ∧ runLoop [faultEnv] initLoopSt
        = runLoop []
            { wake := (iterActions faultEnv initLoopSt.wake).wake,
              trace := initLoopSt.trace
                ++ (iterActions faultEnv initLoopSt.wake).acts
                ++ [Act.jotException "boom"],
              iters := initLoopSt.iters + 1, halted := false }
    ∧ (∃ s2, runLoop [faultEnv] initLoopSt = Except.ok s2
        ∧ s2.iters = initLoopSt.iters + [faultEnv].length) := by
  refine ⟨c8_loop_fault_containment.1 [faultEnv] initLoopSt,
    c8_loop_fault_containment.2.1 faultEnv [] initLoopSt "boom" rfl rfl
      (by decide),
    c8_loop_fault_containment.2.2 [faultEnv] initLoopSt rfl ?_⟩
  intro e he p hp
  simp only [List.mem_singleton] at he
  subst he
  simp [faultEnv, baseEnv] at hp

theorem bda_cons_small (a : Act) (rest : List Act) (h : delayOf a < 1000) :
    bigDelaysFedAfter (a :: rest) = bigDelaysFedAfter rest := by
  simp only [bigDelaysFedAfter]
  rw [if_neg (by omega)]
  simp

theorem bda_small_append (A B : List Act)
    (hA : ∀ a ∈ A, delayOf a < 1000)
    (hB : bigDelaysFedAfter B = true) :
    bigDelaysFedAfter (A ++ B) = true := by
  induction A with
  | nil => simpa using hB
  | cons a A ih =>
    rw [List.cons_append, bda_cons_small _ _ (hA a (List.mem_cons_self a A))]
    exact ih (fun x hx => hA x (List.mem_cons_of_mem a hx))

theorem bda_modSends_append (addr : Nat) (B : List Act)
    (hB : bigDelaysFedAfter B = true) (l : List (String × Option String)) :
    bigDelaysFedAfter (modSends addr l ++ B) = true := by
  induction l with
  | nil => simpa using hB
  | cons mv rest ih =>
    obtain ⟨m, v⟩ := mv
    simp [modSends, bigDelaysFedAfter, delayOf, isFeedAct, ih]

theorem aliveMsgActs_small (addr : Nat) (volt : String) :
    ∀ a ∈ aliveMsgActs addr volt, delayOf a < 1000 := by
  intro a ha
  rcases aliveMsgActs_mem addr volt a ha with h | h | h | ⟨s, h⟩ <;>
    subst h <;> simp [delayOf]

theorem bda_processPacket_append (p : List Nat)
    (mods : Option (List (String × Option String))) (addr : Nat)
    (volt : String) (oF : Bool) (B : List Act)
    (hB : bigDelaysFedAfter B = true) :
    bigDelaysFedAfter ((processPacket p mods addr volt oF).1 ++ B) = true := by
  by_cases h1 : matchesUSMRT p
  · unfold processPacket
    rw [if_pos h1]
    dsimp only
    apply bda_small_append _ _ ?_ hB
    intro a ha
    simp only [List.mem_cons, List.not_mem_nil, or_false] at ha
    rcases ha with h | h <;> subst h <;> simp [delayOf]
  · by_cases h2 : matchesUSOTA p
    · unfold processPacket
      rw [if_neg h1, if_pos h2]
      dsimp only
      cases oF
      · simp only [Bool.false_eq_true, if_false, List.nil_append,
          List.append_nil, List.cons_append]
        rw [bda_cons_small _ _ (by simp [delayOf]),
          bda_cons_small _ _ (by simp [delayOf]),
          bda_cons_small _ _ (by simp [delayOf])]
        exact hB
      · simp only [if_true, List.cons_append, List.nil_append,
          List.append_nil]
        rw [bda_cons_small _ _ (by simp [delayOf]),
          bda_cons_small _ _ (by simp [delayOf]),
          bda_cons_small _ _ (by simp [delayOf]),
          bda_cons_small _ _ (by simp [delayOf])]
        exact hB
    · unfold processPacket
      rw [if_neg h1, if_neg h2]
      dsimp only
      rw [List.append_assoc, List.append_assoc]
      have hA5B : bigDelaysFedAfter
          ((if matchesNetwork p then
              [Act.gcCollect, Act.networkForward p, Act.gcCollect]
            else []) ++ B) = true := by
        apply bda_small_append _ _ ?_ hB
        intro a ha
        split_ifs at ha
        · simp only [List.mem_cons, List.not_mem_nil, or_false] at ha
          rcases ha with h | h | h <;> subst h <;> simp [delayOf]
        · cases ha
      apply bda_small_append _ _ ?_ ?_
      · intro a ha
        split_ifs at ha
        · simp only [List.mem_cons] at ha
          rcases ha with h | h
          · subst h; simp [delayOf]
          · exact aliveMsgActs_small addr volt a h
        · cases ha
      · by_cases h4 : matchesUSMOD p
        · rw [if_pos h4]
          simp only [List.cons_append]
          rw [bda_cons_small _ _ (by simp [delayOf]),
            bda_cons_small _ _ (by simp [delayOf])]
          cases mods with
          | none => simpa using hA5B
          | some l =>
            by_cases h5 : l.isEmpty
            · simp only [h5, Bool.not_true, Bool.false_eq_true, if_false]
              simpa using hA5B
            · have h5' : (!l.isEmpty) = true := by simp [h5]
              simp only [h5', if_true]
              exact bda_modSends_append addr _ hA5B l
        · rw [if_neg h4]
          simpa using hA5B

theorem packetPre_small (w1 : Wake) : ∀ a ∈ packetPre w1, delayOf a < 1000 := by
  intro a ha
  simp only [packetPre, List.mem_cons, List.not_mem_nil, or_false] at ha
  rcases ha with h | h | h | h <;> subst h <;> simp [delayOf]

theorem bda_drain_append (inbox : List (List Nat))
    (mods : Option (List (String × Option String))) (addr : Nat)
    (volt : String) (oF : Bool) (w1 : Wake) (B : List Act)
    (hB : bigDelaysFedAfter B = true) :
    bigDelaysFedAfter ((drainPackets inbox mods addr volt oF w1).1 ++ B)
      = true := by
  induction inbox generalizing B with
  | nil => simpa using hB
  | cons p rest ih =>
    unfold drainPackets
    split_ifs with hstop
    · dsimp only
      rw [List.append_assoc]
      exact bda_small_append _ _ (packetPre_small w1)
        (bda_processPacket_append p mods addr volt oF B hB)
    · dsimp only
      rw [List.append_assoc, List.append_assoc]
      apply bda_small_append _ _ (packetPre_small w1)
      exact bda_processPacket_append p mods addr volt oF _ (ih B hB)

theorem bda_pollRes_append (env : IterEnv) (w : Wake) (B : List Act)
    (hB : bigDelaysFedAfter B = true) :
    bigDelaysFedAfter ((pollRes env w).1 ++ B) = true := by
  unfold pollRes pollBranch
  split_ifs with hc hf
  · dsimp only
    rw [List.append_assoc, List.append_assoc]
    apply bda_small_append _ _ ?_ ?_
    · intro a ha
      simp only [List.mem_cons, List.not_mem_nil, or_false] at ha
      subst ha
      simp [delayOf]
    · apply bda_small_append _ _ ?_ ?_
      · intro a ha
        simp only [List.mem_cons, List.not_mem_nil, or_false] at ha
        rcases ha with h | h <;> subst h <;> simp [delayOf]
      · exact bda_drain_append _ _ _ _ _ _ B hB
  · dsimp only
    rw [List.nil_append, List.append_assoc]
    apply bda_small_append _ _ ?_ ?_
    · intro a ha
      simp only [List.mem_cons, List.not_mem_nil, or_false] at ha
      rcases ha with h | h <;> subst h <;> simp [delayOf]
    · exact bda_drain_append _ _ _ _ _ _ B hB
  · simpa using hB

theorem sleepBranch_small (w2 : Wake) (now2 : Nat) (er : Option EdgeData)
    (cycles : Nat) (se : EdgeData) :
    ∀ a ∈ (sleepBranch w2 now2 er cycles se).1, delayOf a < 1000 := by
  intro a ha
  rcases sleepBranch_acts_cases w2 now2 er cycles se with hc | hc | hc <;>
    rw [hc] at ha
  · cases ha
  · simp only [List.mem_append] at ha
    rcases ha with (h | h) | h
    · simp only [powerDownActs, List.mem_cons, List.not_mem_nil, or_false] at h
      rcases h with h | h | h | h | h | h | h | h <;> subst h <;> simp [delayOf]
    · rcases mem_sleepLoopActs _ _ h with h | h <;> subst h <;> simp [delayOf]
    · simp only [wakeUpActs, List.mem_cons, List.not_mem_nil, or_false] at h
      rcases h with h | h | h | h | h <;> subst h <;> simp [delayOf]
  · simp only [wakeUpActs, List.mem_cons, List.not_mem_nil, or_false] at ha
    rcases ha with h | h | h | h | h <;> subst h <;> simp [delayOf]

theorem bda_iterActions (env : IterEnv) (w : Wake) :
    bigDelaysFedAfter (iterActions env w).acts = true := by
  unfold iterActions
  split_ifs with hr <;> dsimp only
  · rw [bda_cons_small _ _ (by simp [delayOf]),
      bda_cons_small _ _ (by simp [delayOf]),
      ← List.append_nil ((pollRes env w).1)]
    exact bda_pollRes_append env w [] rfl
  · rw [bda_cons_small _ _ (by simp [delayOf]),
      bda_cons_small _ _ (by simp [delayOf])]
    apply bda_pollRes_append env w
    rw [← List.append_nil ((sleepRes env w).1)]
    exact bda_small_append _ _ (sleepBranch_small _ _ _ _ _) rfl

theorem lsFedAux_noLight_then (A : List Act)
    (hA : ∀ a ∈ A, isLightsleepAct a = false) (B : List Act)
    (hB : ∀ q : Act, lsFedAux q B = true) :
    ∀ prev, lsFedAux prev (A ++ B) = true := by
  induction A with
  | nil => intro prev; simpa using hB prev
  | cons a A ih =>
    intro prev
    rw [List.cons_append]
    simp only [lsFedAux]
    rw [hA a (List.mem_cons_self a A)]
    simp only [Bool.false_eq_true, if_false, Bool.true_and]
    exact ih (fun x hx => hA x (List.mem_cons_of_mem a hx)) a

theorem lsFedAux_wakeUp (prev : Act) : lsFedAux prev wakeUpActs = true := by
  simp [wakeUpActs, lsFedAux, isLightsleepAct]

theorem lsFedAux_sleepLoop_wake : ∀ (n : Nat) (prev : Act),
    lsFedAux prev (sleepLoopActs n ++ wakeUpActs) = true := by
  intro n
  induction n with
  | zero => intro prev; simpa [sleepLoopActs] using lsFedAux_wakeUp prev
  | succ n ih =>
    intro prev
    have hstep : sleepLoopActs (n + 1)
        = Act.feed :: Act.lightsleep :: sleepLoopActs n := by
      simp [sleepLoopActs, List.replicate_succ]
    rw [hstep, List.cons_append, List.cons_append]
    simp only [lsFedAux, isLightsleepAct, isFeedAct]
    simp [ih]

theorem lightsleepsFedBefore_sleepBranch (w2 : Wake) (now2 : Nat)
    (er : Option EdgeData) (cycles : Nat) (se : EdgeData) :
    lightsleepsFedBefore (sleepBranch w2 now2 er cycles se).1 = true := by
  rcases sleepBranch_acts_cases w2 now2 er cycles se with hc | hc | hc <;>
    rw [hc]
  · rfl
  · rw [List.append_assoc]
    simp only [powerDownActs, List.cons_append]
    simp only [lightsleepsFedBefore, isLightsleepAct, Bool.not_false,
      Bool.true_and]
    exact lsFedAux_noLight_then _ (by decide) _
      (lsFedAux_sleepLoop_wake (cycles + 1)) _
  · decide

/-- C2 (amended): in the startup sequence the two 10-second settle delays
around modem power-on are bracketed as a pair — a feed immediately before
the first (lines 164-168, only a log line between) and a feed immediately
after the second (lines 170-173) — rather than each individually, and the
total delay between consecutive feeds never exceeds 20 s, inside the 30 s
watchdog budget; in the loop, every delay of at least 1000 ms (the
1-second inter-send pauses of the list-modules loop) is immediately
followed by a feed, and in the sleep loop every lightsleep is immediately
preceded by a feed.  (The claim's per-delay bracketing is refuted by
`c2_feed_bracket_counterexample`.) -/
theorem c2_feed_discipline_amended (cause : String) (addr : Nat)
    (volt statusLine : String) :
    (maxFeedGapDelay (startupTrace cause addr volt statusLine) = 20000
      ∧ 20000 < 30000)
    ∧ startupTrace cause addr volt statusLine
        = startupPrefixActs cause
          ++ [Act.feed, Act.jot "Powering on NM3", Act.sleepMs 10000,
              Act.enableNm3, Act.sleepMs 10000, Act.feed]
          ++ startupSuffixActs addr volt statusLine
    ∧ (∀ (env : IterEnv) (w : Wake),
        bigDelaysFedAfter (iterActions env w).acts = true)
    ∧ (∀ (w2 : Wake) (now2 : Nat) (er : Option EdgeData) (cycles : Nat)
        (se : EdgeData),
        lightsleepsFedBefore (sleepBranch w2 now2 er cycles se).1 = true) :=
  ⟨⟨rfl, by norm_num⟩, rfl, bda_iterActions, lightsleepsFedBefore_sleepBranch⟩
